import Mathlib

/-!
# Verification of `packages/tracing/src/browser/metrics.ts`

A shallow embedding of the browser performance-metrics instrumentation:
the `MetricsInstrumentation` class (cursor-driven entry-stream processor,
LCP and FID observers, first-hidden-time tracking) and the span-synthesis
helper functions (`addNavigationSpans`, `addMeasureSpans`,
`addResourceSpans`, `addPerformanceNavigationTiming`, `addRequest`,
`_startChild`).

Timestamps are rationals (`ℚ`).  JavaScript values that can be `NaN`
(e.g. `timeOrigin + msToSec(undefined)`) are modelled as `Option ℚ` with
`none` for `NaN`; optional record fields are likewise `Option ℚ` with
`none` for `undefined`.  The process-wide first-hidden time, which the
source initializes to `Infinity` when the page is visible, is a dedicated
type `HTime` with an `inf` point.
-/

namespace SentryMetrics

/-- A JavaScript number that may be `NaN` (`none` = `NaN`). -/
abbrev JSNum := Option ℚ

/-- JavaScript numeric truthiness: `0` and `NaN` are falsy. -/
def jsTruthy : JSNum → Bool
  | none => false
  | some q => q != 0

/-- JavaScript `<` on possibly-NaN numbers: any comparison with `NaN` is false. -/
def jsLt : JSNum → JSNum → Bool
  | some a, some b => a < b
  | _, _ => false

/-- JavaScript `>` on possibly-NaN numbers: any comparison with `NaN` is false. -/
def jsGt : JSNum → JSNum → Bool
  | some a, some b => a > b
  | _, _ => false

/-- JavaScript `+` on possibly-NaN numbers: `NaN` propagates. -/
def jsAdd : JSNum → JSNum → JSNum
  | some a, some b => some (a + b)
  | _, _ => none

/-- Modelled from the spec: `msToSec` (imported from `../utils`, not part of
this file) converts a millisecond quantity to seconds by dividing by 1000. -/
def msToSec (time : ℚ) : ℚ :=
  time / 1000

/-- `msToSec` applied to a possibly-`undefined` field: `msToSec(undefined)` is `NaN`. -/
def msToSecOpt : Option ℚ → JSNum
  | none => none
  | some q => some (msToSec q)

/-- The process-wide first-hidden timestamp: either a finite time or
`Infinity` (page never hidden so far). -/
inductive HTime where
  | inf : HTime
  | fin (t : ℚ) : HTime
deriving DecidableEq

/-- `s < firstHiddenTime` as in the source guards (`entry.startTime < this._firstHiddenTime`). -/
def hlt (s : ℚ) : HTime → Bool
  | .inf => true
  | .fin h => s < h

/-- `Math.min(firstHiddenTime, timeStamp)` as in the constructor's
visibility-change listener. -/
def hmin : HTime → ℚ → HTime
  | .inf, t => .fin t
  | .fin h, t => .fin (min h t)

/-- The span context passed to `_startChild` / `transaction.startChild`:
`{description, op, startTimestamp, endTimestamp, data}`. -/
structure SpanCtx where
  description : String
  op : String
  startTimestamp : JSNum
  endTimestamp : JSNum
  data : List (String × ℚ)
deriving DecidableEq

/-- Modelled from the spec: the `Transaction` collaborator (from
`../transaction`, outside this file) owns a mutable start timestamp, an
operation tag, a child-span list appended to by `startChild`, and a
measurements snapshot attached by `setMeasurements`. -/
structure Transaction where
  op : String
  startTimestamp : JSNum
  spans : List SpanCtx
  measurements : Option (List (String × ℚ)) := none
deriving DecidableEq

/-- Modelled from the spec: `transaction.startChild(ctx)` creates a new
child span from the context and appends it to the transaction. -/
def Transaction.startChild (t : Transaction) (ctx : SpanCtx) : Transaction :=
  { t with spans := t.spans ++ [ctx] }

/-- Modelled from the spec: `transaction.setMeasurements(m)` attaches the
measurement snapshot to the transaction. -/
def setMeasurements (t : Transaction) (m : List (String × ℚ)) : Transaction :=
  { t with measurements := some m }

/-- `_startChild(transaction, { startTimestamp, ...ctx })`: if
`startTimestamp` is truthy and the transaction starts later, pull the
transaction's start timestamp back to `startTimestamp`; then start the child. -/
def _startChild (transaction : Transaction) (ctx : SpanCtx) : Transaction :=
  let transaction :=
    if jsTruthy ctx.startTimestamp && jsGt transaction.startTimestamp ctx.startTimestamp then
      { transaction with startTimestamp := ctx.startTimestamp }
    else
      transaction
  transaction.startChild ctx

/-- Writing `store[key] = {value}` on the JS measurements object:
overwrite the key if present, otherwise append it. -/
def setMeas : List (String × ℚ) → String → ℚ → List (String × ℚ)
  | [], k, v => [(k, v)]
  | (k0, v0) :: rest, k, v =>
      if k0 = k then (k, v) :: rest else (k0, v0) :: setMeas rest k v

/-- Reading `store[key]` from the measurements object. -/
def getMeas : List (String × ℚ) → String → Option ℚ
  | [], _ => none
  | (k0, v0) :: rest, k => if k0 = k then some v0 else getMeas rest k

/-- A performance-timeline entry (`PerformanceEntry` plus the subtype
fields the source reads): `name`, `entryType`, `startTime`, `duration`,
the navigation-timing phase fields, the resource fields, and the
event-timing `processingStart`.  Optional fields are `none` when the
browser did not supply them (`undefined`). -/
structure PerfEntry where
  name : String := ""
  entryType : String := ""
  startTime : ℚ := 0
  duration : ℚ := 0
  unloadEventStart : Option ℚ := none
  unloadEventEnd : Option ℚ := none
  domContentLoadedEventStart : Option ℚ := none
  domContentLoadedEventEnd : Option ℚ := none
  loadEventStart : Option ℚ := none
  loadEventEnd : Option ℚ := none
  connectStart : Option ℚ := none
  connectEnd : Option ℚ := none
  domainLookupStart : Option ℚ := none
  domainLookupEnd : Option ℚ := none
  requestStart : Option ℚ := none
  responseStart : Option ℚ := none
  responseEnd : Option ℚ := none
  initiatorType : Option String := none
  transferSize : Option ℚ := none
  encodedBodySize : Option ℚ := none
  decodedBodySize : Option ℚ := none
  processingStart : ℚ := 0
deriving DecidableEq

/-- The mutable fields of `MetricsInstrumentation`: first-hidden time,
the LCP `final` flag, the measurement store, and the timeline cursor. -/
structure Metrics where
  firstHiddenTime : HTime
  lcpFinal : Bool
  measurements : List (String × ℚ)
  performanceCursor : Nat
deriving DecidableEq

/-- `updateLCP(entry)` from `_trackLCP`: accept the candidate only if its
start time precedes the first-hidden time, overwriting `lcp` (raw start
time) and `mark.lcp` (time-origin-relative seconds); otherwise set the
`final` flag.  `timeOriginMs` is the ambient `performance.timeOrigin`. -/
def updateLCP (timeOriginMs : ℚ) (m : Metrics) (entry : PerfEntry) : Metrics :=
  if hlt entry.startTime m.firstHiddenTime then
    let timeOrigin := msToSec timeOriginMs
    let startTime := msToSec entry.startTime
    { m with
      measurements :=
        setMeas (setMeas m.measurements "lcp" entry.startTime) "mark.lcp" (timeOrigin + startTime) }
  else
    { m with lcpFinal := true }

/-- `this._forceLCP()` once the LCP observer is installed: drain
`po.takeRecords()` (the pending buffered records) through `updateLCP`. -/
def forceLCP (timeOriginMs : ℚ) (m : Metrics) (recs : List PerfEntry) : Metrics :=
  recs.foldl (updateLCP timeOriginMs) m

/-- The `visibilitychange` listener registered by `_trackLCP`: a no-op if
already final; if the page just became hidden, drain the pending records
through `updateLCP` and set the `final` flag. -/
def lcpVisibilityChange (timeOriginMs : ℚ) (m : Metrics) (hidden : Bool)
    (recs : List PerfEntry) : Metrics :=
  if m.lcpFinal then m
  else if hidden then
    { recs.foldl (updateLCP timeOriginMs) m with lcpFinal := true }
  else m

/-- `updateFID(entry, po)` from `_trackFID`: the `Bool` component is the
observer's connected state.  If the entry's start time precedes the
first-hidden time, record `fid = processingStart − startTime` and
`mark.fid = timeOrigin + startTime`, then disconnect the observer. -/
def updateFID (timeOriginMs : ℚ) (s : Metrics × Bool) (entry : PerfEntry) : Metrics × Bool :=
  let (m, connected) := s
  if hlt entry.startTime m.firstHiddenTime then
    let fidValue := entry.processingStart - entry.startTime
    let timeOrigin := msToSec timeOriginMs
    let startTime := msToSec entry.startTime
    ({ m with
       measurements :=
         setMeas (setMeas m.measurements "fid" fidValue) "mark.fid" (timeOrigin + startTime) },
     false)
  else
    (m, connected)

/-- One delivery of a batch of `first-input` entries to the FID
`PerformanceObserver` callback: nothing is delivered once the observer has
disconnected, but within a delivered batch the `forEach` processes every
entry, even after a disconnect earlier in the same batch. -/
def fidDeliver (timeOriginMs : ℚ) (s : Metrics × Bool) (batch : List PerfEntry) :
    Metrics × Bool :=
  if s.2 then batch.foldl (updateFID timeOriginMs) s else s

/-- `entry[event + 'Start']`: dynamic field access for the five
navigation-phase names dispatched by `addNavigationSpans`. -/
def navStartField (entry : PerfEntry) : String → Option ℚ
  | "unloadEvent" => entry.unloadEventStart
  | "domContentLoadedEvent" => entry.domContentLoadedEventStart
  | "loadEvent" => entry.loadEventStart
  | "connect" => entry.connectStart
  | "domainLookup" => entry.domainLookupStart
  | _ => none

/-- `entry[event + 'End']`: dynamic field access for the five
navigation-phase names dispatched by `addNavigationSpans`. -/
def navEndField (entry : PerfEntry) : String → Option ℚ
  | "unloadEvent" => entry.unloadEventEnd
  | "domContentLoadedEvent" => entry.domContentLoadedEventEnd
  | "loadEvent" => entry.loadEventEnd
  | "connect" => entry.connectEnd
  | "domainLookup" => entry.domainLookupEnd
  | _ => none

/-- JavaScript truthiness of a possibly-`undefined` number (the
`if (!start || !end)` guard): `undefined` and `0` are falsy. -/
def truthyOpt : Option ℚ → Bool
  | none => false
  | some q => q != 0

/-- `addPerformanceNavigationTiming(transaction, entry, event, timeOrigin)`:
emit one phase span, but only when both `entry[event+'Start']` and
`entry[event+'End']` are truthy. -/
def addPerformanceNavigationTiming (transaction : Transaction) (entry : PerfEntry)
    (event : String) (timeOrigin : ℚ) : Transaction :=
  let endv := navEndField entry event
  let startv := navStartField entry event
  if !truthyOpt startv || !truthyOpt endv then
    transaction
  else
    _startChild transaction
      { description := event
        op := "browser"
        startTimestamp := jsAdd (some timeOrigin) (msToSecOpt startv)
        endTimestamp := jsAdd (some timeOrigin) (msToSecOpt endv)
        data := [] }

/-- `addRequest(transaction, entry, timeOrigin)`: unconditionally emit the
`request` and `response` spans from `requestStart` / `responseStart` /
`responseEnd` (an absent field makes the corresponding timestamp `NaN`). -/
def addRequest (transaction : Transaction) (entry : PerfEntry) (timeOrigin : ℚ) :
    Transaction :=
  let t1 := _startChild transaction
    { description := "request"
      op := "browser"
      startTimestamp := jsAdd (some timeOrigin) (msToSecOpt entry.requestStart)
      endTimestamp := jsAdd (some timeOrigin) (msToSecOpt entry.responseEnd)
      data := [] }
  _startChild t1
    { description := "response"
      op := "browser"
      startTimestamp := jsAdd (some timeOrigin) (msToSecOpt entry.responseStart)
      endTimestamp := jsAdd (some timeOrigin) (msToSecOpt entry.responseEnd)
      data := [] }

/-- `addNavigationSpans(transaction, entry, timeOrigin)`: the five phase
spans followed by the request/response spans. -/
def addNavigationSpans (transaction : Transaction) (entry : PerfEntry) (timeOrigin : ℚ) :
    Transaction :=
  let t1 := addPerformanceNavigationTiming transaction entry "unloadEvent" timeOrigin
  let t2 := addPerformanceNavigationTiming t1 entry "domContentLoadedEvent" timeOrigin
  let t3 := addPerformanceNavigationTiming t2 entry "loadEvent" timeOrigin
  let t4 := addPerformanceNavigationTiming t3 entry "connect" timeOrigin
  let t5 := addPerformanceNavigationTiming t4 entry "domainLookup" timeOrigin
  addRequest t5 entry timeOrigin

/-- `addMeasureSpans(transaction, entry, startTime, duration, timeOrigin)`:
emit one span named after the entry and return the measure start timestamp. -/
def addMeasureSpans (transaction : Transaction) (entry : PerfEntry)
    (startTime duration timeOrigin : ℚ) : Transaction × ℚ :=
  let measureStartTimestamp := timeOrigin + startTime
  let measureEndTimestamp := measureStartTimestamp + duration
  (_startChild transaction
    { description := entry.name
      op := entry.entryType
      startTimestamp := some measureStartTimestamp
      endTimestamp := some measureEndTimestamp
      data := [] },
   measureStartTimestamp)

/-- `entry.initiatorType ? 'resource.' + entry.initiatorType : 'resource'`
(the empty string is falsy). -/
def resourceOp : Option String → String
  | some it => if it = "" then "resource" else "resource." ++ it
  | none => "resource"

/-- `addResourceSpans(transaction, entry, resourceName, startTime, duration,
timeOrigin)`: skip `xmlhttprequest`/`fetch` initiators (returning
`undefined`); otherwise emit one resource span carrying the size data
fields that are present, and return its end timestamp. -/
def addResourceSpans (transaction : Transaction) (entry : PerfEntry)
    (resourceName : String) (startTime duration timeOrigin : ℚ) :
    Transaction × Option ℚ :=
  if entry.initiatorType = some "xmlhttprequest" ∨ entry.initiatorType = some "fetch" then
    (transaction, none)
  else
    let data : List (String × ℚ) :=
      (match entry.transferSize with
        | some v => [("Transfer Size", v)]
        | none => []) ++
      (match entry.encodedBodySize with
        | some v => [("Encoded Body Size", v)]
        | none => []) ++
      (match entry.decodedBodySize with
        | some v => [("Decoded Body Size", v)]
        | none => [])
    let startTimestamp := timeOrigin + startTime
    let endTimestamp := startTimestamp + duration
    (_startChild transaction
      { description := resourceName
        op := resourceOp entry.initiatorType
        startTimestamp := some startTimestamp
        endTimestamp := some endTimestamp
        data := data },
     some endTimestamp)

/-- Character-list core of JavaScript `s.replace(pat, repl)` with a string
pattern: replace the first occurrence of `pat`, scanning left to right. -/
def replaceFirstAux (pat repl : List Char) : List Char → List Char
  | [] => if pat.isPrefixOf ([] : List Char) then repl else []
  | c :: rest =>
      if pat.isPrefixOf (c :: rest) then repl ++ (c :: rest).drop pat.length
      else c :: replaceFirstAux pat repl rest

/-- JavaScript `s.replace(pat, repl)` with a string pattern: replace the
first occurrence only (the string is unchanged when `pat` does not occur). -/
def replaceFirst (s pat repl : String) : String :=
  String.mk (replaceFirstAux pat.toList repl.toList s.toList)

/-- Character-list core of JavaScript `s.indexOf(pat) > -1`: does `pat`
occur in the list (the empty pattern always occurs)? -/
def strContainsAux (pat : List Char) : List Char → Bool
  | [] => pat.isPrefixOf ([] : List Char)
  | c :: rest => pat.isPrefixOf (c :: rest) || strContainsAux pat rest

/-- JavaScript `s.indexOf(pat) > -1`: substring containment (the empty
pattern is always found). -/
def jsIncludes (s pat : String) : Bool :=
  strContainsAux pat.toList s.toList

/-- One `document.scripts` element: its `dataset.entry` attribute and `src`. -/
structure ScriptTag where
  dataEntry : Option String := none
  src : String := ""
deriving DecidableEq

/-- The loop over `document.scripts` locating the first script whose
`dataset.entry === 'true'`, returning its `src`. -/
def findEntryScript : List ScriptTag → Option String
  | [] => none
  | s :: rest => if s.dataEntry = some "true" then some s.src else findEntryScript rest

/-- The ambient browser state read by `addPerformanceEntries`: the
performance timeline (`performance.getEntries()`), `performance.timeOrigin`
in milliseconds, `document.scripts`, `window.location.origin`, and the LCP
observer's pending buffered records drained by `_forceLCP`. -/
structure Env where
  timeline : List PerfEntry := []
  timeOriginMs : ℚ := 0
  scripts : List ScriptTag := []
  locationOrigin : String := ""
  pendingLCP : List PerfEntry := []
deriving DecidableEq

/-- The local mutable state of one `addPerformanceEntries` pass: the
instrumentation state, the transaction, and the two `undefined`-initialized
locals `entryScriptStartTimestamp` and `tracingInitMarkStartTime`. -/
structure ProcState where
  metrics : Metrics
  transaction : Transaction
  entryScriptStartTimestamp : Option ℚ
  tracingInitMarkStartTime : Option ℚ
deriving DecidableEq

/-- The `forEach` body of `addPerformanceEntries`: skip entries predating a
navigation transaction, then dispatch on `entryType` (`navigation`,
`mark`/`paint`/`measure`, `resource`; other types ignored). -/
def processEntry (timeOrigin : ℚ) (entryScriptSrc : Option String)
    (locationOrigin : String) (st : ProcState) (entry : PerfEntry) : ProcState :=
  let startTime := msToSec entry.startTime
  let duration := msToSec entry.duration
  if st.transaction.op = "navigation" &&
      jsLt (some (timeOrigin + startTime)) st.transaction.startTimestamp then
    st
  else
    match entry.entryType with
    | "navigation" =>
        { st with transaction := addNavigationSpans st.transaction entry timeOrigin }
    | "mark" | "paint" | "measure" =>
        let r := addMeasureSpans st.transaction entry startTime duration timeOrigin
        let startTimestamp := r.2
        let tim :=
          if st.tracingInitMarkStartTime = none ∧ entry.name = "sentry-tracing-init" then
            some startTimestamp
          else
            st.tracingInitMarkStartTime
        let meas := st.metrics.measurements
        let meas :=
          if entry.name = "first-paint" then
            setMeas (setMeas meas "fp" entry.startTime) "mark.fp" startTimestamp
          else meas
        let meas :=
          if entry.name = "first-contentful-paint" then
            setMeas (setMeas meas "fcp" entry.startTime) "mark.fcp" startTimestamp
          else meas
        { st with
          transaction := r.1
          tracingInitMarkStartTime := tim
          metrics := { st.metrics with measurements := meas } }
    | "resource" =>
        let resourceName := replaceFirst entry.name locationOrigin ""
        let r := addResourceSpans st.transaction entry resourceName startTime duration timeOrigin
        let est :=
          if st.entryScriptStartTimestamp = none ∧
              jsIncludes (entryScriptSrc.getD "") resourceName then
            r.2
          else
            st.entryScriptStartTimestamp
        { st with transaction := r.1, entryScriptStartTimestamp := est }
    | _ => st

/-- `MetricsInstrumentation.addPerformanceEntries(transaction)` with the
performance API available: force-flush LCP for pageload transactions, fold
the timeline entries past the cursor through `processEntry`, emit the
`evaluation` span when both the entry-script end and the tracing-init mark
were seen, advance the cursor to `max(length − 1, 0)`, and attach the
measurements to pageload transactions. -/
def addPerformanceEntries (env : Env) (m0 : Metrics) (transaction : Transaction) :
    Metrics × Transaction :=
  let m1 :=
    if transaction.op = "pageload" then forceLCP env.timeOriginMs m0 env.pendingLCP else m0
  let timeOrigin := msToSec env.timeOriginMs
  let entryScriptSrc := findEntryScript env.scripts
  let st0 : ProcState :=
    { metrics := m1
      transaction := transaction
      entryScriptStartTimestamp := none
      tracingInitMarkStartTime := none }
  let st1 := (env.timeline.drop m1.performanceCursor).foldl
    (processEntry timeOrigin entryScriptSrc env.locationOrigin) st0
  let st2 :=
    match st1.entryScriptStartTimestamp, st1.tracingInitMarkStartTime with
    | some es, some ti =>
        { st1 with
          transaction := _startChild st1.transaction
            { description := "evaluation"
              op := "script"
              startTimestamp := some es
              endTimestamp := some ti
              data := [] } }
    | _, _ => st1
  let m2 := { st2.metrics with performanceCursor := env.timeline.length - 1 }
  let tx2 :=
    if transaction.op = "pageload" then setMeasurements st2.transaction m2.measurements
    else st2.transaction
  (m2, tx2)

/-- The instrumentation state right after construction when
`document.visibilityState === 'hidden'`: `_firstHiddenTime = 0`,
`_lcpFinal = false`, empty measurements, cursor `0`. -/
def hiddenConstructionMetrics : Metrics :=
  { firstHiddenTime := .fin 0
    lcpFinal := false
    measurements := []
    performanceCursor := 0 }

/-- The events that can reach the instrumentation state during a session:
the constructor's `visibilitychange` listener (`firstHiddenTime :=
min(firstHiddenTime, event.timeStamp)`), a delivery of a batch of LCP
candidates to the LCP observer, the LCP `visibilitychange` listener, a
delivery of a batch of `first-input` entries to the FID observer, and a
call to `addPerformanceEntries`. -/
inductive SessionEv where
  | firstHiddenUpdate (timeStamp : ℚ) : SessionEv
  | lcpObserve (entries : List PerfEntry) : SessionEv
  | lcpVisibility (hidden : Bool) (recs : List PerfEntry) : SessionEv
  | fidObserve (entries : List PerfEntry) : SessionEv
  | callAddEntries (env : Env) (transaction : Transaction) : SessionEv

/-- One step of the session: the `Bool` component is the FID observer's
connected state. -/
def sessionStep (timeOriginMs : ℚ) (s : Metrics × Bool) : SessionEv → Metrics × Bool
  | .firstHiddenUpdate ts => ({ s.1 with firstHiddenTime := hmin s.1.firstHiddenTime ts }, s.2)
  | .lcpObserve entries => (entries.foldl (updateLCP timeOriginMs) s.1, s.2)
  | .lcpVisibility hidden recs => (lcpVisibilityChange timeOriginMs s.1 hidden recs, s.2)
  | .fidObserve entries => fidDeliver timeOriginMs s entries
  | .callAddEntries env transaction => ((addPerformanceEntries env s.1 transaction).1, s.2)

/-- Browser timestamps are non-negative: the session events carry only
entries with `startTime ≥ 0` and visibility timestamps `≥ 0`. -/
def evOK : SessionEv → Bool
  | .firstHiddenUpdate ts => 0 ≤ ts
  | .lcpObserve entries => entries.all fun e => 0 ≤ e.startTime
  | .lcpVisibility _ recs => recs.all fun e => 0 ≤ e.startTime
  | .fidObserve entries => entries.all fun e => 0 ≤ e.startTime
  | .callAddEntries env _ => env.pendingLCP.all fun e => 0 ≤ e.startTime

/-- None of the four web-vital keys written by the LCP/FID observers is
present in the measurement store. -/
def NoVitals (m : Metrics) : Prop :=
  getMeas m.measurements "lcp" = none ∧ getMeas m.measurements "mark.lcp" = none ∧
  getMeas m.measurements "fid" = none ∧ getMeas m.measurements "mark.fid" = none

/-- The instrumentation state right after construction when the page is
visible: `_firstHiddenTime = Infinity`, empty measurements, cursor `0`. -/
def visibleStartMetrics : Metrics :=
  { firstHiddenTime := .inf
    lcpFinal := false
    measurements := []
    performanceCursor := 0 }

/-- A user `mark` entry used in concrete runs of the processor. -/
def markEntry : PerfEntry :=
  { name := "m", entryType := "mark", startTime := 100, duration := 50 }

/-- An environment whose timeline holds the single `mark` entry and never
grows: two processor passes over it expose the cursor boundary. -/
def envRepeat : Env :=
  { timeline := [markEntry] }

/-- A transaction whose operation is neither `pageload` nor `navigation`. -/
def otherTx : Transaction :=
  { op := "other", startTimestamp := some 1, spans := [] }

/-- A pageload transaction starting at 1000 s. -/
def pageloadTx : Transaction :=
  { op := "pageload", startTimestamp := some 1000, spans := [] }

/-- Scenario B resource entry: a script loaded from
`https://example.com/app.js` at 10 ms for 5 ms. -/
def scriptResourceEntry : PerfEntry :=
  { name := "https://example.com/app.js"
    entryType := "resource"
    startTime := 10
    duration := 5
    initiatorType := some "script" }

/-- Scenario B environment: `timeOrigin = 1000 s` (= 1000000 ms) and
`window.location.origin = "https://example.com"`. -/
def scenarioBEnv : Env :=
  { timeline := [scriptResourceEntry]
    timeOriginMs := 1000000
    locationOrigin := "https://example.com" }

/-- Scenario D paint entry: `first-contentful-paint` at 250 ms. -/
def fcpEntry : PerfEntry :=
  { name := "first-contentful-paint", entryType := "paint", startTime := 250 }

/-- The `first-paint` analogue of Scenario D at 250 ms. -/
def fpEntry : PerfEntry :=
  { name := "first-paint", entryType := "paint", startTime := 250 }

/-- Scenario A navigation entry: only `domainLookupStart = 1` and
`domainLookupEnd = 5` are set; every other phase field, and
`requestStart` / `responseStart` / `responseEnd`, are absent. -/
def scenarioAEntry : PerfEntry :=
  { name := "https://example.com/"
    entryType := "navigation"
    domainLookupStart := some 1
    domainLookupEnd := some 5 }

/-- An LCP candidate at 800 ms. -/
def lcp800 : PerfEntry :=
  { entryType := "largest-contentful-paint", startTime := 800 }

/-- An LCP candidate at 100 ms. -/
def lcp100 : PerfEntry :=
  { entryType := "largest-contentful-paint", startTime := 100 }

/-- A first-input entry at 10 ms processed at 15 ms. -/
def fid10 : PerfEntry :=
  { entryType := "first-input", startTime := 10, processingStart := 15 }

/-- A first-input entry at 20 ms processed at 40 ms. -/
def fid20 : PerfEntry :=
  { entryType := "first-input", startTime := 20, processingStart := 40 }

/-- An instrumentation state in which the page went hidden at 500 ms. -/
def hiddenAt500 : Metrics :=
  { firstHiddenTime := .fin 500
    lcpFinal := false
    measurements := []
    performanceCursor := 0 }

/-- A three-entry timeline used to exercise the cursor arithmetic. -/
def threeMarksEnv : Env :=
  { timeline :=
      [{ name := "a", entryType := "mark", startTime := 1 },
       { name := "b", entryType := "mark", startTime := 2 },
       { name := "c", entryType := "mark", startTime := 3 }] }

/-- A state whose cursor already points past the first timeline entry. -/
def cursorOneMetrics : Metrics :=
  { firstHiddenTime := .inf
    lcpFinal := false
    measurements := []
    performanceCursor := 1 }

/-! ## Helper lemmas -/

/-- Reading back the key just written to the measurement store. -/
theorem getMeas_setMeas_self (ms : List (String × ℚ)) (k : String) (v : ℚ) :
    getMeas (setMeas ms k v) k = some v := by
  induction ms with
  | nil => simp [setMeas, getMeas]
  | cons p rest ih =>
      by_cases h : p.1 = k
      · simp [setMeas, getMeas, h]
      · simp [setMeas, getMeas, h, ih]

/-- Writing one key leaves every other key's value unchanged. -/
theorem getMeas_setMeas_ne (ms : List (String × ℚ)) {k k' : String} (v : ℚ)
    (h : k' ≠ k) : getMeas (setMeas ms k v) k' = getMeas ms k' := by
  induction ms with
  | nil => simp [setMeas, getMeas, Ne.symm h]
  | cons p rest ih =>
      by_cases hp : p.1 = k
      · simp [setMeas, getMeas, hp, h, Ne.symm h]
      · by_cases hp' : p.1 = k'
        · simp [setMeas, getMeas, hp, hp', h]
        · simp [setMeas, getMeas, hp, hp', ih]

/-- `_startChild` appends exactly the given context to the child-span list. -/
theorem _startChild_spans (transaction : Transaction) (ctx : SpanCtx) :
    (_startChild transaction ctx).spans = transaction.spans ++ [ctx] := by
  unfold _startChild Transaction.startChild
  split <;> rfl

/-- `_startChild` only ever touches the start timestamp and the span list. -/
theorem _startChild_op (transaction : Transaction) (ctx : SpanCtx) :
    (_startChild transaction ctx).op = transaction.op := by
  unfold _startChild Transaction.startChild
  split <;> rfl

/-- A rejected LCP candidate only sets the `final` flag. -/
theorem updateLCP_rejected (timeOriginMs : ℚ) (m : Metrics) (entry : PerfEntry)
    (h : hlt entry.startTime m.firstHiddenTime = false) :
    updateLCP timeOriginMs m entry = { m with lcpFinal := true } := by
  simp [updateLCP, h]

/-- Setting an already-set `final` flag changes nothing. -/
theorem set_lcpFinal_self (m : Metrics) (h : m.lcpFinal = true) :
    { m with lcpFinal := true } = m := by
  cases m
  simp_all

/-- Draining records that all miss the visibility cutoff into an
already-final state changes nothing. -/
theorem forceLCP_inert (timeOriginMs : ℚ) (recs : List PerfEntry) :
    ∀ m : Metrics, m.lcpFinal = true →
      (∀ e ∈ recs, hlt e.startTime m.firstHiddenTime = false) →
      forceLCP timeOriginMs m recs = m := by
  induction recs with
  | nil => intro m _ _; rfl
  | cons e rest ih =>
      intro m hfin hmiss
      have he : hlt e.startTime m.firstHiddenTime = false := hmiss e (by simp)
      have hstep : updateLCP timeOriginMs m e = m := by
        rw [updateLCP_rejected timeOriginMs m e he, set_lcpFinal_self m hfin]
      show forceLCP timeOriginMs (updateLCP timeOriginMs m e) rest = m
      rw [hstep]
      exact ih m hfin (fun x hx => hmiss x (by simp [hx]))

/-- A disconnected FID observer receives nothing: delivery is the identity. -/
theorem fidDeliver_disconnected (timeOriginMs : ℚ) (s : Metrics × Bool)
    (batch : List PerfEntry) (h : s.2 = false) :
    fidDeliver timeOriginMs s batch = s := by
  simp [fidDeliver, h]

/-- Once disconnected, no sequence of later deliveries changes anything. -/
theorem fidDeliver_foldl_disconnected (timeOriginMs : ℚ)
    (batches : List (List PerfEntry)) :
    ∀ s : Metrics × Bool, s.2 = false →
      batches.foldl (fidDeliver timeOriginMs) s = s := by
  induction batches with
  | nil => intro s _; rfl
  | cons b rest ih =>
      intro s h
      show rest.foldl (fidDeliver timeOriginMs) (fidDeliver timeOriginMs s b) = s
      rw [fidDeliver_disconnected timeOriginMs s b h]
      exact ih s h

/-! ## Claim theorems -/

/-- C4 (amended): `_startChild` pulls the transaction's start timestamp
back to the context's `startTimestamp` when that timestamp is truthy
(non-zero, defined) and earlier than the transaction's start; when it is
zero, not earlier, or undefined/`NaN` (falsy), the transaction's start
timestamp is unchanged. -/
theorem c4_pullback_amended (transaction : Transaction) (ctx : SpanCtx) :
    (∀ q r : ℚ, ctx.startTimestamp = some q → transaction.startTimestamp = some r →
      (q ≠ 0 → q < r → (_startChild transaction ctx).startTimestamp = some q) ∧
      ((q = 0 ∨ r ≤ q) → (_startChild transaction ctx).startTimestamp = some r)) ∧
    (ctx.startTimestamp = none →
      (_startChild transaction ctx).startTimestamp = transaction.startTimestamp) := by
  constructor
  · intro q r hc ht
    constructor
    · intro hq hlt
      simp [_startChild, Transaction.startChild, hc, ht, jsTruthy, jsGt, hq, hlt]
    · rintro (h | h)
      · simp [_startChild, Transaction.startChild, hc, ht, jsTruthy, jsGt, h]
      · simp [_startChild, Transaction.startChild, hc, ht, jsTruthy, jsGt, not_lt.mpr h]
  · intro hc
    simp [_startChild, Transaction.startChild, hc, jsTruthy]

/-- C4 witness: a child starting at 3 s pulls a transaction starting at
5 s back to 3 s, a child starting at 7 s leaves it at 5 s, and a child
with an undefined/`NaN` start timestamp (as `addRequest` produces when
`requestStart` is absent) also leaves it at 5 s. -/
theorem c4_pullback_amended_witness :
    (_startChild { op := "pageload", startTimestamp := some 5, spans := [] }
      { description := "d", op := "o", startTimestamp := some 3,
        endTimestamp := some 9, data := [] }).startTimestamp = some 3 ∧
    (_startChild { op := "pageload", startTimestamp := some 5, spans := [] }
      { description := "d", op := "o", startTimestamp := some 7,
        endTimestamp := some 9, data := [] }).startTimestamp = some 5 ∧
    (_startChild { op := "pageload", startTimestamp := some 5, spans := [] }
      { description := "d", op := "o", startTimestamp := none,
        endTimestamp := some 9, data := [] }).startTimestamp = some 5 := by
  refine ⟨?_, ?_, ?_⟩
  · exact ((c4_pullback_amended _ _).1 3 5 rfl rfl).1 (by norm_num) (by norm_num)
  · exact ((c4_pullback_amended _ _).1 7 5 rfl rfl).2 (Or.inr (by norm_num))
  · exact (c4_pullback_amended _ _).2 rfl

/-- C4 counterexample: the claim predicts that a child-span context whose
`startTimestamp` (0) is earlier than the transaction's start (5) pulls the
transaction's start back to 0, but `0` is falsy in the `startTimestamp &&`
guard, so the transaction's start timestamp stays 5. -/
theorem c4_zero_start_counterexample :
    (0 : ℚ) < 5 ∧
    (_startChild { op := "pageload", startTimestamp := some 5, spans := [] }
      { description := "d", op := "o", startTimestamp := some 0,
        endTimestamp := some 9, data := [] }).startTimestamp = some 5 := by
  constructor
  · norm_num
  · simp [_startChild, Transaction.startChild, jsTruthy]

/-- C5: an LCP or FID candidate whose `startTime` has reached the
first-hidden cutoff never touches the measurements (for FID the whole
state is untouched); a candidate whose `startTime` precedes the cutoff
writes `lcp` (resp. `fid = processingStart − startTime`). -/
theorem c5_visibility_cutoff (timeOriginMs : ℚ) (m : Metrics) (connected : Bool)
    (entry : PerfEntry) :
    (hlt entry.startTime m.firstHiddenTime = false →
      (updateLCP timeOriginMs m entry).measurements = m.measurements ∧
      updateFID timeOriginMs (m, connected) entry = (m, connected)) ∧
    (hlt entry.startTime m.firstHiddenTime = true →
      getMeas (updateLCP timeOriginMs m entry).measurements "lcp" = some entry.startTime ∧
      getMeas (updateFID timeOriginMs (m, connected) entry).1.measurements "fid" =
        some (entry.processingStart - entry.startTime)) := by
  constructor
  · intro h
    constructor
    · simp [updateLCP, h]
    · simp [updateFID, h]
  · intro h
    constructor
    · simp only [updateLCP, h, if_true]
      rw [getMeas_setMeas_ne _ _ (by decide), getMeas_setMeas_self]
    · simp only [updateFID, h, if_true]
      rw [getMeas_setMeas_ne _ _ (by decide), getMeas_setMeas_self]

/-- C5 witness: with the page hidden at 500 ms, a candidate at 800 ms
leaves the measurements empty while a candidate at 100 ms writes them. -/
theorem c5_visibility_cutoff_witness :
    (updateLCP 0 hiddenAt500 lcp800).measurements = hiddenAt500.measurements ∧
    updateFID 0 (hiddenAt500, true) lcp800 = (hiddenAt500, true) ∧
    getMeas (updateLCP 0 hiddenAt500 lcp100).measurements "lcp" = some lcp100.startTime ∧
    getMeas (updateFID 0 (hiddenAt500, true) fid10).1.measurements "fid" =
      some (fid10.processingStart - fid10.startTime) := by
  refine ⟨?_, ?_, ?_, ?_⟩
  · exact ((c5_visibility_cutoff 0 hiddenAt500 true lcp800).1 (by decide)).1
  · exact ((c5_visibility_cutoff 0 hiddenAt500 true lcp800).1 (by decide)).2
  · exact ((c5_visibility_cutoff 0 hiddenAt500 true lcp100).2 (by decide)).1
  · exact ((c5_visibility_cutoff 0 hiddenAt500 true fid10).2 (by decide)).2

/-- C7: a resource entry whose `initiatorType` is `xmlhttprequest` or
`fetch` produces no span and no end timestamp: the transaction (its
child-span list included) is returned unchanged. -/
theorem c7_xhr_fetch_suppression (transaction : Transaction) (entry : PerfEntry)
    (resourceName : String) (startTime duration timeOrigin : ℚ)
    (h : entry.initiatorType = some "xmlhttprequest" ∨ entry.initiatorType = some "fetch") :
    addResourceSpans transaction entry resourceName startTime duration timeOrigin =
      (transaction, none) := by
  unfold addResourceSpans
  rw [if_pos h]

/-- C7 witness: a concrete `fetch` resource entry leaves a concrete
transaction untouched. -/
theorem c7_xhr_fetch_suppression_witness :
    addResourceSpans otherTx
      { entryType := "resource", initiatorType := some "fetch" } "n" 1 2 3 =
      (otherTx, none) :=
  c7_xhr_fetch_suppression otherTx _ "n" 1 2 3 (Or.inr rfl)

/-- C2 (amended): an LCP candidate at or past the first-hidden cutoff
only sets the `final` flag; afterwards the LCP `visibilitychange` listener
is a no-op, and a force-flush leaves the state unchanged for every drained
record at or past the cutoff — but force-flush itself is not guarded by
the flag, so a drained record before the cutoff still writes `lcp`. -/
theorem c2_lcp_final_amended (timeOriginMs : ℚ) (m : Metrics) (entry : PerfEntry)
    (h : hlt entry.startTime m.firstHiddenTime = false) :
    (updateLCP timeOriginMs m entry = { m with lcpFinal := true }) ∧
    (∀ (hidden : Bool) (recs : List PerfEntry),
      lcpVisibilityChange timeOriginMs { m with lcpFinal := true } hidden recs =
        { m with lcpFinal := true }) ∧
    (∀ recs : List PerfEntry,
      (∀ e ∈ recs, hlt e.startTime m.firstHiddenTime = false) →
      forceLCP timeOriginMs { m with lcpFinal := true } recs =
        { m with lcpFinal := true }) := by
  refine ⟨updateLCP_rejected timeOriginMs m entry h, ?_, ?_⟩
  · intro hidden recs
    simp [lcpVisibilityChange]
  · intro recs hmiss
    exact forceLCP_inert timeOriginMs recs _ rfl hmiss

/-- C2 witness: with the page hidden at 500 ms, the 800 ms candidate sets
the flag, the visibility listener then does nothing, and flushing another
800 ms record does nothing. -/
theorem c2_lcp_final_amended_witness :
    updateLCP 0 hiddenAt500 lcp800 = { hiddenAt500 with lcpFinal := true } ∧
    lcpVisibilityChange 0 { hiddenAt500 with lcpFinal := true } true [lcp800] =
      { hiddenAt500 with lcpFinal := true } ∧
    forceLCP 0 { hiddenAt500 with lcpFinal := true } [lcp800] =
      { hiddenAt500 with lcpFinal := true } := by
  obtain ⟨h1, h2, h3⟩ := c2_lcp_final_amended 0 hiddenAt500 lcp800 (by decide)
  exact ⟨h1, h2 true [lcp800], h3 [lcp800] (by decide)⟩

/-- C2 counterexample: the claim says every force-flush after the `final`
flag is set writes nothing, but `_forceLCP` does not consult the flag:
after the 800 ms candidate finalizes the state (page hidden at 500 ms), a
force-flush that drains a 100 ms record still writes `lcp = 100`. -/
theorem c2_forceflush_counterexample :
    (updateLCP 0 hiddenAt500 lcp800).lcpFinal = true ∧
    getMeas (updateLCP 0 hiddenAt500 lcp800).measurements "lcp" = none ∧
    getMeas (forceLCP 0 (updateLCP 0 hiddenAt500 lcp800) [lcp100]).measurements "lcp" =
      some 100 := by
  refine ⟨by decide, by decide, ?_⟩
  show getMeas (updateLCP 0 (updateLCP 0 hiddenAt500 lcp800) lcp100).measurements "lcp" =
    some 100
  rw [updateLCP_rejected 0 hiddenAt500 lcp800 (by decide)]
  simp only [updateLCP, hiddenAt500, lcp100]
  norm_num [hlt]
  rw [getMeas_setMeas_ne _ _ (by decide), getMeas_setMeas_self]

/-- C3 (amended): a qualifying first-input entry writes
`fid = processingStart − startTime` and disconnects the observer, so no
later-delivered batch changes anything; additional qualifying entries in
the same already-delivered batch, however, are still processed and
overwrite `fid`. -/
theorem c3_fid_single_write_amended (timeOriginMs : ℚ) (m : Metrics) (connected : Bool)
    (entry : PerfEntry) (h : hlt entry.startTime m.firstHiddenTime = true) :
    getMeas (updateFID timeOriginMs (m, connected) entry).1.measurements "fid" =
      some (entry.processingStart - entry.startTime) ∧
    (updateFID timeOriginMs (m, connected) entry).2 = false ∧
    (∀ batches : List (List PerfEntry),
      batches.foldl (fidDeliver timeOriginMs) (updateFID timeOriginMs (m, connected) entry) =
        updateFID timeOriginMs (m, connected) entry) := by
  refine ⟨?_, ?_, ?_⟩
  · simp only [updateFID, h, if_true]
    rw [getMeas_setMeas_ne _ _ (by decide), getMeas_setMeas_self]
  · simp [updateFID, h]
  · intro batches
    exact fidDeliver_foldl_disconnected timeOriginMs batches _ (by simp [updateFID, h])

/-- C3 witness: the 10 ms first-input entry (page never hidden) records
`fid = 5`, disconnects, and a later batch holding the 20 ms entry changes
nothing. -/
theorem c3_fid_single_write_amended_witness :
    getMeas (updateFID 0 (visibleStartMetrics, true) fid10).1.measurements "fid" =
      some (fid10.processingStart - fid10.startTime) ∧
    (updateFID 0 (visibleStartMetrics, true) fid10).2 = false ∧
    [[fid20]].foldl (fidDeliver 0) (updateFID 0 (visibleStartMetrics, true) fid10) =
      updateFID 0 (visibleStartMetrics, true) fid10 := by
  obtain ⟨h1, h2, h3⟩ := c3_fid_single_write_amended 0 visibleStartMetrics true fid10 (by decide)
  exact ⟨h1, h2, h3 [[fid20]]⟩

/-- C3 counterexample: two qualifying first-input entries delivered in one
observer batch.  The first (10 ms, processed at 15 ms) writes `fid = 5`,
but `po.disconnect()` does not stop the `forEach` over the same batch: the
second entry (20 ms, processed at 40 ms) overwrites `fid` with 20, so a
subsequently processed entry did change the `fid` measurement. -/
theorem c3_fid_batch_counterexample :
    getMeas (updateFID 0 (visibleStartMetrics, true) fid10).1.measurements "fid" = some 5 ∧
    getMeas (fidDeliver 0 (visibleStartMetrics, true) [fid10, fid20]).1.measurements "fid" =
      some 20 ∧
    (5 : ℚ) ≠ 20 := by
  refine ⟨?_, ?_, by norm_num⟩
  · simp only [updateFID, visibleStartMetrics, fid10, hlt, if_true]
    norm_num
    rw [getMeas_setMeas_ne _ _ (by decide), getMeas_setMeas_self]
  · show getMeas (updateFID 0 (updateFID 0 (visibleStartMetrics, true) fid10) fid20).1.measurements
      "fid" = some 20
    simp only [updateFID, visibleStartMetrics, fid10, fid20, hlt, if_true]
    norm_num
    rw [getMeas_setMeas_ne _ _ (by decide), getMeas_setMeas_self]

/-- C6 (amended): a navigation-phase span is emitted exactly when both the
phase's start and end timestamps are truthy, but the `request` and
`response` spans are always emitted for a navigation entry — even when
`requestStart` / `responseStart` / `responseEnd` are absent, in which case
their timestamps are `NaN`. -/
theorem c6_navigation_spans_amended (transaction : Transaction) (entry : PerfEntry)
    (event : String) (timeOrigin : ℚ) :
    ((truthyOpt (navStartField entry event) && truthyOpt (navEndField entry event)) = false →
      addPerformanceNavigationTiming transaction entry event timeOrigin = transaction) ∧
    ((truthyOpt (navStartField entry event) && truthyOpt (navEndField entry event)) = true →
      (addPerformanceNavigationTiming transaction entry event timeOrigin).spans =
        transaction.spans ++
          [{ description := event
             op := "browser"
             startTimestamp := jsAdd (some timeOrigin) (msToSecOpt (navStartField entry event))
             endTimestamp := jsAdd (some timeOrigin) (msToSecOpt (navEndField entry event))
             data := [] }]) ∧
    ((addRequest transaction entry timeOrigin).spans =
      transaction.spans ++
        [{ description := "request"
           op := "browser"
           startTimestamp := jsAdd (some timeOrigin) (msToSecOpt entry.requestStart)
           endTimestamp := jsAdd (some timeOrigin) (msToSecOpt entry.responseEnd)
           data := [] },
         { description := "response"
           op := "browser"
           startTimestamp := jsAdd (some timeOrigin) (msToSecOpt entry.responseStart)
           endTimestamp := jsAdd (some timeOrigin) (msToSecOpt entry.responseEnd)
           data := [] }]) := by
  refine ⟨?_, ?_, ?_⟩
  · intro h
    cases hs : truthyOpt (navStartField entry event) <;>
      cases he : truthyOpt (navEndField entry event) <;>
      simp_all [addPerformanceNavigationTiming]
  · intro h
    cases hs : truthyOpt (navStartField entry event) <;>
      cases he : truthyOpt (navEndField entry event) <;>
      simp_all [addPerformanceNavigationTiming, _startChild_spans]
  · simp [addRequest, _startChild_spans]

/-- C6 witness: Scenario A — only `domainLookup` among the five phases has
truthy timestamps, so it alone yields a phase span (`timeOrigin = 1000 s`
puts it at 1000.001–1000.005 s); the zeroed/absent `connect` phase yields
none; the request/response spans are appended regardless. -/
theorem c6_navigation_spans_amended_witness :
    (addPerformanceNavigationTiming pageloadTx scenarioAEntry "domainLookup" 1000).spans =
      pageloadTx.spans ++
        [{ description := "domainLookup"
           op := "browser"
           startTimestamp := jsAdd (some 1000) (msToSecOpt (navStartField scenarioAEntry "domainLookup"))
           endTimestamp := jsAdd (some 1000) (msToSecOpt (navEndField scenarioAEntry "domainLookup"))
           data := [] }] ∧
    addPerformanceNavigationTiming pageloadTx scenarioAEntry "connect" 1000 = pageloadTx ∧
    (addRequest pageloadTx scenarioAEntry 1000).spans =
      pageloadTx.spans ++
        [{ description := "request"
           op := "browser"
           startTimestamp := jsAdd (some 1000) (msToSecOpt scenarioAEntry.requestStart)
           endTimestamp := jsAdd (some 1000) (msToSecOpt scenarioAEntry.responseEnd)
           data := [] },
         { description := "response"
           op := "browser"
           startTimestamp := jsAdd (some 1000) (msToSecOpt scenarioAEntry.responseStart)
           endTimestamp := jsAdd (some 1000) (msToSecOpt scenarioAEntry.responseEnd)
           data := [] }] := by
  refine ⟨?_, ?_, ?_⟩
  · exact (c6_navigation_spans_amended pageloadTx scenarioAEntry "domainLookup" 1000).2.1
      (by decide)
  · exact (c6_navigation_spans_amended pageloadTx scenarioAEntry "connect" 1000).1 (by decide)
  · exact (c6_navigation_spans_amended pageloadTx scenarioAEntry "request" 1000).2.2

/-- C6 counterexample: the claim says request/response spans are emitted
only when `requestStart` / `responseStart` / `responseEnd` are present,
but on the Scenario A entry — where all three are absent — processing the
navigation entry still emits the `request` and `response` spans (with
`NaN` timestamps) after the single `domainLookup` phase span. -/
theorem c6_request_always_counterexample :
    scenarioAEntry.requestStart = none ∧
    scenarioAEntry.responseStart = none ∧
    scenarioAEntry.responseEnd = none ∧
    (addNavigationSpans pageloadTx scenarioAEntry 1000).spans.map
        (fun s => (s.description, s.startTimestamp)) =
      [("domainLookup", some (1000001 / 1000 : ℚ)), ("request", none), ("response", none)] := by
  refine ⟨rfl, rfl, rfl, ?_⟩
  norm_num [addNavigationSpans, addPerformanceNavigationTiming, addRequest, navStartField,
    navEndField, truthyOpt, scenarioAEntry, pageloadTx, _startChild, Transaction.startChild,
    jsTruthy, jsGt, jsAdd, msToSecOpt, msToSec]

/-- C1 (amended): one processor pass considers exactly the timeline
entries with index ≥ the previous cursor (every such index is found in the
processed slice), and afterwards the cursor equals `total − 1` (floored at
0) — never exceeding the total; consequently any index strictly below
`total − 1` lies outside every later pass's slice, but the final index
`total − 1` itself is re-dispatched by the next pass. -/
theorem c1_cursor_amended (env : Env) (m : Metrics) (transaction : Transaction) :
    ((addPerformanceEntries env m transaction).1.performanceCursor =
      env.timeline.length - 1) ∧
    ((addPerformanceEntries env m transaction).1.performanceCursor ≤ env.timeline.length) ∧
    (∀ i, m.performanceCursor ≤ i → i < env.timeline.length →
      (env.timeline.drop m.performanceCursor)[i - m.performanceCursor]? =
        env.timeline[i]?) ∧
    (∀ i, i + 1 < env.timeline.length → ∀ k,
      (addPerformanceEntries env m transaction).1.performanceCursor + k ≠ i) := by
  have hc : (addPerformanceEntries env m transaction).1.performanceCursor =
      env.timeline.length - 1 := by
    simp [addPerformanceEntries]
  refine ⟨hc, ?_, ?_, ?_⟩
  · rw [hc]; omega
  · intro i h1 h2
    rw [List.getElem?_drop]
    congr 1
    omega
  · intro i h k
    rw [hc]
    omega

/-- C1 witness: on the three-entry timeline with previous cursor 1, the
pass leaves the cursor at 2 (≤ 3), index 2 appears in the processed slice,
and index 1 (< 2) is unreachable from the new cursor. -/
theorem c1_cursor_amended_witness :
    (addPerformanceEntries threeMarksEnv cursorOneMetrics otherTx).1.performanceCursor =
      threeMarksEnv.timeline.length - 1 ∧
    (addPerformanceEntries threeMarksEnv cursorOneMetrics otherTx).1.performanceCursor ≤
      threeMarksEnv.timeline.length ∧
    (threeMarksEnv.timeline.drop cursorOneMetrics.performanceCursor)[2 -
        cursorOneMetrics.performanceCursor]? = threeMarksEnv.timeline[2]? ∧
    ∀ k, (addPerformanceEntries threeMarksEnv cursorOneMetrics otherTx).1.performanceCursor +
        k ≠ 1 := by
  obtain ⟨h1, h2, h3, h4⟩ := c1_cursor_amended threeMarksEnv cursorOneMetrics otherTx
  exact ⟨h1, h2, h3 2 (by decide) (by decide), h4 1 (by decide)⟩

set_option maxHeartbeats 1600000 in
/-- C1 counterexample: the cursor is advanced only to `total − 1`, so with
a one-entry timeline it stays at 0 and a second pass dispatches the same
`mark` entry to span synthesis again — after two passes over the unchanged
single-entry timeline the transaction carries two spans, refuting "no
entry is converted into a span more than once / re-processing never
occurs". -/
theorem c1_reprocessing_counterexample :
    envRepeat.timeline.length = 1 ∧
    (addPerformanceEntries envRepeat visibleStartMetrics otherTx).1.performanceCursor = 0 ∧
    (addPerformanceEntries envRepeat visibleStartMetrics otherTx).2.spans.length = 1 ∧
    (addPerformanceEntries envRepeat
        (addPerformanceEntries envRepeat visibleStartMetrics otherTx).1
        (addPerformanceEntries envRepeat visibleStartMetrics otherTx).2).2.spans.length =
      2 := by
  refine ⟨rfl, ?_, ?_, ?_⟩
  · simp [addPerformanceEntries, envRepeat]
  · norm_num [addPerformanceEntries, processEntry, forceLCP, msToSec, findEntryScript,
      addMeasureSpans, _startChild, Transaction.startChild, jsTruthy, jsGt, jsLt,
      setMeasurements, envRepeat, visibleStartMetrics, otherTx, markEntry]
    simp
  · norm_num [addPerformanceEntries, processEntry, forceLCP, msToSec, findEntryScript,
      addMeasureSpans, _startChild, Transaction.startChild, jsTruthy, jsGt, jsLt,
      setMeasurements, envRepeat, visibleStartMetrics, otherTx, markEntry]
    simp

/-- C8: Scenario B — processing the `script` resource entry
`https://example.com/app.js` (10 ms start, 5 ms duration) with
`timeOrigin = 1000 s` and `location.origin = https://example.com` emits
exactly one span: description `/app.js`, operation `resource.script`,
start 1000.010 s, end 1000.015 s. -/
theorem c8_scenario_b :
    (addPerformanceEntries scenarioBEnv visibleStartMetrics pageloadTx).2.spans =
      [{ description := "/app.js"
         op := "resource.script"
         startTimestamp := some 1000.01
         endTimestamp := some 1000.015
         data := [] }] := by
  have h1 : replaceFirst "https://example.com/app.js" "https://example.com" "" = "/app.js" := by
    decide
  have h2 : jsIncludes "" "/app.js" = false := by decide
  norm_num [addPerformanceEntries, processEntry, forceLCP, msToSec, findEntryScript, h1, h2,
    addResourceSpans, resourceOp, _startChild, Transaction.startChild, jsTruthy, jsGt,
    setMeasurements, jsLt, visibleStartMetrics, pageloadTx, scenarioBEnv, scriptResourceEntry]
  simp

/-- C9: Scenario D — a `paint` entry named `first-contentful-paint` at
250 ms writes `fcp = 250` (raw milliseconds) and
`mark.fcp = timeOrigin + 0.25` (seconds); a `first-paint` entry writes the
analogous `fp` / `mark.fp` pair. -/
theorem c9_scenario_d (timeOriginMs : ℚ) :
    (getMeas (addPerformanceEntries { timeline := [fcpEntry], timeOriginMs := timeOriginMs }
        visibleStartMetrics pageloadTx).1.measurements "fcp" = some 250 ∧
     getMeas (addPerformanceEntries { timeline := [fcpEntry], timeOriginMs := timeOriginMs }
        visibleStartMetrics pageloadTx).1.measurements "mark.fcp" =
       some (msToSec timeOriginMs + 0.25)) ∧
    (getMeas (addPerformanceEntries { timeline := [fpEntry], timeOriginMs := timeOriginMs }
        visibleStartMetrics pageloadTx).1.measurements "fp" = some 250 ∧
     getMeas (addPerformanceEntries { timeline := [fpEntry], timeOriginMs := timeOriginMs }
        visibleStartMetrics pageloadTx).1.measurements "mark.fp" =
       some (msToSec timeOriginMs + 0.25)) := by
  refine ⟨⟨?_, ?_⟩, ⟨?_, ?_⟩⟩ <;>
  · norm_num [addPerformanceEntries, processEntry, forceLCP, msToSec, findEntryScript,
      addMeasureSpans, _startChild, Transaction.startChild, jsTruthy, jsGt, jsLt,
      setMeasurements, setMeas, getMeas, visibleStartMetrics, pageloadTx, fcpEntry, fpEntry]
    try simp
    try norm_num

/-- With the first-hidden time at 0, no non-negative start time passes the
strict cutoff. -/
theorem hlt_fin_zero {s : ℚ} (h : 0 ≤ s) : hlt s (.fin 0) = false := by
  simp [hlt]
  exact h

/-- With the first-hidden time at 0, an LCP candidate with non-negative
start time only sets the `final` flag. -/
theorem updateLCP_hidden_zero (timeOriginMs : ℚ) (m : Metrics) (entry : PerfEntry)
    (hm : m.firstHiddenTime = .fin 0) (he : 0 ≤ entry.startTime) :
    updateLCP timeOriginMs m entry = { m with lcpFinal := true } := by
  apply updateLCP_rejected
  rw [hm]
  exact hlt_fin_zero he

/-- Folding LCP candidates with non-negative start times over a state whose
first-hidden time is 0 keeps the first-hidden time and the measurements. -/
theorem lcpFold_hidden_zero (timeOriginMs : ℚ) (entries : List PerfEntry) :
    ∀ m : Metrics, m.firstHiddenTime = .fin 0 → (∀ e ∈ entries, 0 ≤ e.startTime) →
      (entries.foldl (updateLCP timeOriginMs) m).firstHiddenTime = .fin 0 ∧
      (entries.foldl (updateLCP timeOriginMs) m).measurements = m.measurements := by
  induction entries with
  | nil => intro m hm _; exact ⟨hm, rfl⟩
  | cons e rest ih =>
      intro m hm hok
      simp only [List.foldl_cons]
      rw [updateLCP_hidden_zero timeOriginMs m e hm (hok e (by simp))]
      exact ih { m with lcpFinal := true } hm fun x hx => hok x (by simp [hx])

/-- With the first-hidden time at 0, a first-input entry with non-negative
start time leaves the FID observer state untouched. -/
theorem updateFID_hidden_zero (timeOriginMs : ℚ) (s : Metrics × Bool) (entry : PerfEntry)
    (hm : s.1.firstHiddenTime = .fin 0) (he : 0 ≤ entry.startTime) :
    updateFID timeOriginMs s entry = s := by
  obtain ⟨m, c⟩ := s
  simp only [updateFID]
  rw [show m.firstHiddenTime = .fin 0 from hm, hlt_fin_zero he]
  simp

/-- A batch of non-negative first-input entries leaves a first-hidden-at-0
observer state untouched. -/
theorem fidFold_hidden_zero (timeOriginMs : ℚ) (batch : List PerfEntry) :
    ∀ s : Metrics × Bool, s.1.firstHiddenTime = .fin 0 →
      (∀ e ∈ batch, 0 ≤ e.startTime) →
      batch.foldl (updateFID timeOriginMs) s = s := by
  induction batch with
  | nil => intro s _ _; rfl
  | cons e rest ih =>
      intro s hm hok
      simp only [List.foldl_cons]
      rw [updateFID_hidden_zero timeOriginMs s e hm (hok e (by simp))]
      exact ih s hm fun x hx => hok x (by simp [hx])

/-- The `forEach` body never writes the LCP/FID measurement keys and never
touches the first-hidden time: it writes only `fp` / `mark.fp` / `fcp` /
`mark.fcp`. -/
theorem processEntry_vitals (timeOrigin : ℚ) (entryScriptSrc : Option String)
    (locationOrigin : String) (st : ProcState) (entry : PerfEntry) :
    (processEntry timeOrigin entryScriptSrc locationOrigin st entry).metrics.firstHiddenTime =
      st.metrics.firstHiddenTime ∧
    ∀ k : String, k ≠ "fp" → k ≠ "mark.fp" → k ≠ "fcp" → k ≠ "mark.fcp" →
      getMeas (processEntry timeOrigin entryScriptSrc locationOrigin st entry).metrics.measurements
          k =
        getMeas st.metrics.measurements k := by
  simp only [processEntry]
  split
  · exact ⟨rfl, fun k _ _ _ _ => rfl⟩
  · split <;>
      first
        | exact ⟨rfl, fun k _ _ _ _ => rfl⟩
        | (refine ⟨rfl, ?_⟩
           intro k h1 h2 h3 h4
           by_cases hf : entry.name = "first-paint"
           · simp [hf, getMeas_setMeas_ne, h1, h2]
           · by_cases hc : entry.name = "first-contentful-paint"
             · simp [hf, hc, getMeas_setMeas_ne, h3, h4]
             · simp [hf, hc])

/-- Folding the `forEach` body over any entry list preserves the
first-hidden time and the LCP/FID measurement keys. -/
theorem foldProc_vitals (timeOrigin : ℚ) (entryScriptSrc : Option String)
    (locationOrigin : String) (entries : List PerfEntry) :
    ∀ st : ProcState,
      (entries.foldl (processEntry timeOrigin entryScriptSrc locationOrigin)
          st).metrics.firstHiddenTime = st.metrics.firstHiddenTime ∧
      ∀ k : String, k ≠ "fp" → k ≠ "mark.fp" → k ≠ "fcp" → k ≠ "mark.fcp" →
        getMeas (entries.foldl (processEntry timeOrigin entryScriptSrc locationOrigin)
            st).metrics.measurements k =
          getMeas st.metrics.measurements k := by
  induction entries with
  | nil => intro st; exact ⟨rfl, fun k _ _ _ _ => rfl⟩
  | cons e rest ih =>
      intro st
      simp only [List.foldl_cons]
      obtain ⟨ihf, ihm⟩ := ih (processEntry timeOrigin entryScriptSrc locationOrigin st e)
      obtain ⟨pf, pm⟩ := processEntry_vitals timeOrigin entryScriptSrc locationOrigin st e
      refine ⟨ihf.trans pf, ?_⟩
      intro k h1 h2 h3 h4
      rw [ihm k h1 h2 h3 h4, pm k h1 h2 h3 h4]

/-- A full processor pass over a state whose first-hidden time is 0 (with
non-negative pending LCP records) keeps the first-hidden time at 0 and
never introduces the LCP/FID measurement keys. -/
theorem addPerformanceEntries_vitals (env : Env) (m : Metrics) (transaction : Transaction)
    (hm : m.firstHiddenTime = .fin 0) (hok : ∀ e ∈ env.pendingLCP, 0 ≤ e.startTime) :
    (addPerformanceEntries env m transaction).1.firstHiddenTime = .fin 0 ∧
    ∀ k : String, k ≠ "fp" → k ≠ "mark.fp" → k ≠ "fcp" → k ≠ "mark.fcp" →
      getMeas (addPerformanceEntries env m transaction).1.measurements k =
        getMeas m.measurements k := by
  have hm1 :
      (if transaction.op = "pageload" then forceLCP env.timeOriginMs m env.pendingLCP
        else m).firstHiddenTime = .fin 0 ∧
      (if transaction.op = "pageload" then forceLCP env.timeOriginMs m env.pendingLCP
        else m).measurements = m.measurements := by
    split
    · exact lcpFold_hidden_zero env.timeOriginMs env.pendingLCP m hm hok
    · exact ⟨hm, rfl⟩
  simp only [addPerformanceEntries]
  split
  all_goals
    obtain ⟨ff, fm⟩ := foldProc_vitals (msToSec env.timeOriginMs) (findEntryScript env.scripts)
      env.locationOrigin
      (env.timeline.drop
        (if transaction.op = "pageload" then forceLCP env.timeOriginMs m env.pendingLCP
          else m).performanceCursor)
      { metrics :=
          if transaction.op = "pageload" then forceLCP env.timeOriginMs m env.pendingLCP
          else m
        transaction := transaction
        entryScriptStartTimestamp := none
        tracingInitMarkStartTime := none }
  all_goals refine ⟨ff.trans hm1.1, ?_⟩
  all_goals intro k h1 h2 h3 h4
  all_goals rw [fm k h1 h2 h3 h4]
  all_goals rw [hm1.2]

/-- One session event with non-negative timestamps keeps the first-hidden
time at 0 and keeps the four LCP/FID measurement keys absent. -/
theorem sessionStep_inv (timeOriginMs : ℚ) (s : Metrics × Bool) (ev : SessionEv)
    (hm : s.1.firstHiddenTime = .fin 0) (hv : NoVitals s.1) (hev : evOK ev = true) :
    (sessionStep timeOriginMs s ev).1.firstHiddenTime = .fin 0 ∧
    NoVitals (sessionStep timeOriginMs s ev).1 := by
  cases ev with
  | firstHiddenUpdate ts =>
      have hts : (0 : ℚ) ≤ ts := by simpa [evOK] using hev
      refine ⟨?_, hv⟩
      simp [sessionStep, hm, hmin, min_eq_left hts]
  | lcpObserve entries =>
      have hok : ∀ e ∈ entries, 0 ≤ e.startTime := by simpa [evOK, List.all_eq_true] using hev
      obtain ⟨hf, hmeas⟩ := lcpFold_hidden_zero timeOriginMs entries s.1 hm hok
      refine ⟨hf, ?_⟩
      show NoVitals (entries.foldl (updateLCP timeOriginMs) s.1)
      unfold NoVitals
      rw [hmeas]
      exact hv
  | lcpVisibility hidden recs =>
      have hok : ∀ e ∈ recs, 0 ≤ e.startTime := by simpa [evOK, List.all_eq_true] using hev
      show (lcpVisibilityChange timeOriginMs s.1 hidden recs).firstHiddenTime = .fin 0 ∧
        NoVitals (lcpVisibilityChange timeOriginMs s.1 hidden recs)
      unfold lcpVisibilityChange
      obtain ⟨hf, hmeas⟩ := lcpFold_hidden_zero timeOriginMs recs s.1 hm hok
      split
      · exact ⟨hm, hv⟩
      · split
        · refine ⟨hf, ?_⟩
          unfold NoVitals
          show getMeas (recs.foldl (updateLCP timeOriginMs) s.1).measurements "lcp" = none ∧ _
          rw [hmeas]
          exact hv
        · exact ⟨hm, hv⟩
  | fidObserve entries =>
      have hok : ∀ e ∈ entries, 0 ≤ e.startTime := by simpa [evOK, List.all_eq_true] using hev
      show (fidDeliver timeOriginMs s entries).1.firstHiddenTime = .fin 0 ∧
        NoVitals (fidDeliver timeOriginMs s entries).1
      unfold fidDeliver
      split
      · rw [fidFold_hidden_zero timeOriginMs entries s hm hok]
        exact ⟨hm, hv⟩
      · exact ⟨hm, hv⟩
  | callAddEntries env transaction =>
      have hok : ∀ e ∈ env.pendingLCP, 0 ≤ e.startTime := by
        simpa [evOK, List.all_eq_true] using hev
      obtain ⟨hf, hkeys⟩ := addPerformanceEntries_vitals env s.1 transaction hm hok
      refine ⟨hf, ?_⟩
      unfold NoVitals
      simp only [sessionStep]
      rw [hkeys "lcp" (by decide) (by decide) (by decide) (by decide),
        hkeys "mark.lcp" (by decide) (by decide) (by decide) (by decide),
        hkeys "fid" (by decide) (by decide) (by decide) (by decide),
        hkeys "mark.fid" (by decide) (by decide) (by decide) (by decide)]
      exact hv

/-- Folding session events preserves the invariant. -/
theorem sessionFold_inv (timeOriginMs : ℚ) (events : List SessionEv) :
    ∀ s : Metrics × Bool, s.1.firstHiddenTime = .fin 0 → NoVitals s.1 →
      (∀ ev ∈ events, evOK ev = true) →
      (events.foldl (sessionStep timeOriginMs) s).1.firstHiddenTime = .fin 0 ∧
      NoVitals (events.foldl (sessionStep timeOriginMs) s).1 := by
  induction events with
  | nil => intro s hm hv _; exact ⟨hm, hv⟩
  | cons ev rest ih =>
      intro s hm hv hok
      simp only [List.foldl_cons]
      obtain ⟨hm1, hv1⟩ := sessionStep_inv timeOriginMs s ev hm hv (hok ev (by simp))
      exact ih (sessionStep timeOriginMs s ev) hm1 hv1 fun x hx => hok x (by simp [hx])

/-- C10: when the page is already hidden at construction the first-hidden
time is initialized to 0, the visibility listener can only keep it at 0,
and since every candidate entry has `startTime ≥ 0` the strict
`startTime < firstHiddenTime` cutoff never holds: across any session of
observer deliveries, visibility events and processor passes, none of
`lcp`, `mark.lcp`, `fid`, `mark.fid` is ever written. -/
theorem c10_hidden_construction (timeOriginMs : ℚ) (events : List SessionEv)
    (h : ∀ ev ∈ events, evOK ev = true) :
    hiddenConstructionMetrics.firstHiddenTime = .fin 0 ∧
    NoVitals
      (events.foldl (sessionStep timeOriginMs) (hiddenConstructionMetrics, true)).1 := by
  refine ⟨rfl, ?_⟩
  exact (sessionFold_inv timeOriginMs events (hiddenConstructionMetrics, true) rfl
    ⟨rfl, rfl, rfl, rfl⟩ h).2

/-- C10 witness: a concrete hidden-at-construction session — an LCP
candidate at 800 ms, a first-input batch, a visibility change at 700 ms
and a processor pass — ends with none of the four vital keys written. -/
theorem c10_hidden_construction_witness :
    hiddenConstructionMetrics.firstHiddenTime = .fin 0 ∧
    NoVitals
      ([SessionEv.lcpObserve [lcp800], SessionEv.fidObserve [fid10, fid20],
          SessionEv.firstHiddenUpdate 700, SessionEv.callAddEntries envRepeat pageloadTx,
          SessionEv.lcpVisibility true [lcp100]].foldl
        (sessionStep 0) (hiddenConstructionMetrics, true)).1 :=
  c10_hidden_construction 0
    [SessionEv.lcpObserve [lcp800], SessionEv.fidObserve [fid10, fid20],
      SessionEv.firstHiddenUpdate 700, SessionEv.callAddEntries envRepeat pageloadTx,
      SessionEv.lcpVisibility true [lcp100]]
    (by decide)

end SentryMetrics
